import Mathlib

/-!
Verification of the Payment-Dashboard gateway integration layer.

Shallow embedding of the TypeScript sources:
  - `src/server/src/routes/payments.ts` (status mapping, creation route,
    the `POST /:id/refresh-status` reconciliation loop),
  - `src/server/src/services/truelayer.ts` (request signing inputs,
    idempotency keys, the OAuth token cache, response finalization),
  - `src/server/src/db/dynamodb.ts` (`updatePaymentStatus`).

Effectful pieces are modelled by explicit state passing: the gateway is an
oracle `Nat → Except GatewayError TrueLayerPaymentResponse` indexed by the
1-based polling attempt, UUID generation is an oracle `Nat → String` indexed
by draw order, and wall-clock instants are passed as parameters.  JavaScript
numbers are idealized as exact rationals.
-/

namespace PaymentDashboard

/-- The `PaymentStatus` union type from `types/payment.ts`. -/
inductive PaymentStatus where
  | authorization_required
  | authorizing
  | authorized
  | failed
  | executed
  | settled
deriving DecidableEq, Repr

/-- The `TrueLayerPaymentResponse` shape from `types/payment.ts`, plus the
`failure_reason` field the route logs (present on failed gateway payments). -/
structure TrueLayerPaymentResponse where
  id : String
  amount_in_minor : ℚ
  currency : String
  status : PaymentStatus
  created_at : String := ""
  failure_reason : Option String := none
  resource_token : Option String := none
  hosted_payments_page_url : Option String := none
deriving DecidableEq, Repr

/-- `mapPaymentStatus` from `routes/payments.ts`: returns the TrueLayer status
as-is, with no reinterpretation of cancellations versus failures. -/
def mapPaymentStatus (trueLayerPayment : TrueLayerPaymentResponse) : PaymentStatus :=
  trueLayerPayment.status

/-- The persisted `Payment` record from `types/payment.ts`.  `statusMessage`
and `canRetry` are the ad-hoc advisory fields the refresh route attaches to
the returned object. -/
structure Payment where
  userId : String
  paymentId : String
  amount : ℚ
  currency : String
  status : PaymentStatus
  reference : String
  createdAt : String
  updatedAt : String
  paymentLink : Option String := none
  trueLayerData : Option TrueLayerPaymentResponse := none
  statusMessage : Option String := none
  canRetry : Option Bool := none
deriving DecidableEq, Repr

/-- An error thrown by `trueLayerService.getPayment`. -/
structure GatewayError where
  message : String
deriving DecidableEq, Repr

/-- `maxAttempts` constant of the refresh-status route. -/
def maxAttempts : Nat := 4

/-- `delayMs` constant of the refresh-status route (milliseconds slept between
polling attempts). -/
def delayMs : Nat := 800

/-- How the polling `while` loop of `POST /:id/refresh-status` exits:
`changed` breaks out with a response whose mapped status differs from the
original one, `unchanged` breaks at the attempt ceiling with the status still
equal, `errored` rethrows a gateway error raised on the final attempt. -/
inductive PollOutcome where
  | changed (resp : TrueLayerPaymentResponse)
  | unchanged (resp : TrueLayerPaymentResponse)
  | errored (e : GatewayError)
deriving DecidableEq, Repr

/-- Observable trace of one run of the polling loop: how it exited, how many
`getPayment` calls it made, and how many `delayMs`-long sleeps it performed. -/
structure PollTrace where
  outcome : PollOutcome
  calls : Nat
  sleeps : Nat
deriving DecidableEq, Repr

/-- The polling `while` loop of `POST /:id/refresh-status`, fuel-indexed.
`gw i` is the result of the `getPayment` call on attempt `i` (1-based).
Mirrors the source: on a successful fetch whose mapped status differs from
`originalStatus` it breaks; if unchanged and below the ceiling it sleeps and
retries; on a thrown error it rethrows only when this was the last attempt,
otherwise it sleeps and retries. -/
def pollLoop (gw : Nat → Except GatewayError TrueLayerPaymentResponse)
    (originalStatus : PaymentStatus) :
    Nat → Nat → Nat → Nat → PollTrace
  | 0, _, calls, sleeps => ⟨.errored ⟨"loop guard unreachable"⟩, calls, sleeps⟩
  | fuel + 1, attempt, calls, sleeps =>
    match gw attempt with
    | .ok resp =>
      if mapPaymentStatus resp ≠ originalStatus then
        ⟨.changed resp, calls + 1, sleeps⟩
      else if attempt < maxAttempts then
        pollLoop gw originalStatus fuel (attempt + 1) (calls + 1) (sleeps + 1)
      else
        ⟨.unchanged resp, calls + 1, sleeps⟩
    | .error e =>
      if attempt = maxAttempts then
        ⟨.errored e, calls + 1, sleeps⟩
      else
        pollLoop gw originalStatus fuel (attempt + 1) (calls + 1) (sleeps + 1)

/-- The polling loop as entered by the route: attempt counter starts at 1 and
the loop runs at most `maxAttempts` iterations. -/
def refreshPoll (gw : Nat → Except GatewayError TrueLayerPaymentResponse)
    (originalStatus : PaymentStatus) : PollTrace :=
  pollLoop gw originalStatus maxAttempts 1 0 0

/-- `updatePaymentStatus` from `db/dynamodb.ts`: sets `status` and
`updatedAt` (to the write time), and `trueLayerData` only when one is
provided; every other attribute of the item is untouched. -/
def updatePaymentStatus (p : Payment) (status : PaymentStatus)
    (trueLayerData : Option TrueLayerPaymentResponse) (now : String) : Payment :=
  match trueLayerData with
  | some tl => { p with status := status, updatedAt := now, trueLayerData := some tl }
  | none => { p with status := status, updatedAt := now }

/-- The advisory message attached when the status did not change after all
attempts. -/
def advisoryMessage : String :=
  "Payment status is still processing. It may take a few moments to update."

/-- Result of the `POST /:id/refresh-status` handler on a found payment:
either a 500 caused by a rethrown gateway error, or a 200 carrying the
returned payment object together with the state of the persisted record
after the handler ran. -/
inductive RefreshResult where
  | serverError (e : GatewayError)
  | success (returned : Payment) (stored : Payment)
deriving DecidableEq, Repr

/-- The post-loop section of `POST /:id/refresh-status`, given the response
fetched by the attempt on which the loop exited.  If the mapped status
differs from the stored one, the database record is updated (write time
`now`) and the in-memory payment gets the new status, data and `updatedAt`;
otherwise the unchanged payment is returned annotated with the advisory
message and `canRetry`, and no write occurs. -/
def afterPoll (payment : Payment) (originalStatus : PaymentStatus) (now : String)
    (resp : TrueLayerPaymentResponse) : RefreshResult :=
  let mappedStatus := mapPaymentStatus resp
  if mappedStatus ≠ payment.status then
    .success
      { payment with status := mappedStatus, trueLayerData := some resp, updatedAt := now }
      (updatePaymentStatus payment mappedStatus (some resp) now)
  else if mappedStatus = originalStatus then
    .success { payment with statusMessage := some advisoryMessage, canRetry := some true }
      payment
  else
    .success payment payment

/-- The `POST /:id/refresh-status` handler on a found payment: runs the
polling loop against the stored status, then the post-loop update; a gateway
error rethrown out of the loop is caught by the outer handler and becomes a
500 response. -/
def refreshStatusHandler (gw : Nat → Except GatewayError TrueLayerPaymentResponse)
    (payment : Payment) (now : String) : RefreshResult :=
  let originalStatus := payment.status
  match (refreshPoll gw originalStatus).outcome with
  | .errored e => .serverError e
  | .changed resp => afterPoll payment originalStatus now resp
  | .unchanged resp => afterPoll payment originalStatus now resp

/-! ### Sanity checks on concrete runs of the loop -/

/-- A response with a given status. -/
def respWith (s : PaymentStatus) : TrueLayerPaymentResponse :=
  { id := "pay-1", amount_in_minor := 5000, currency := "GBP", status := s }

example :
    refreshPoll (fun _ => .ok (respWith .executed)) .authorizing =
      ⟨.changed (respWith .executed), 1, 0⟩ := by
  decide

example :
    refreshPoll (fun _ => .ok (respWith .authorizing)) .authorizing =
      ⟨.unchanged (respWith .authorizing), 4, 3⟩ := by
  decide

example :
    refreshPoll (fun i => if i = 1 then .error ⟨"boom"⟩ else .ok (respWith .executed))
      .authorizing = ⟨.changed (respWith .executed), 2, 1⟩ := by
  decide

/-! ### Payment creation: signing, idempotency key, request body, route -/

/-- The `CreatePaymentRequest` shape from `types/payment.ts` (the fields the
server reads). -/
structure CreatePaymentRequest where
  amount : ℚ
  currency : String
  reference : String
deriving DecidableEq, Repr

/-- The parts of the request body built inside `createPayment` in
`services/truelayer.ts` that depend on the inputs: the minor-unit amount,
the upper-cased currency, the beneficiary reference, and the freshly drawn
end-user UUID.  All remaining body fields are constants in the source. -/
structure PaymentRequestBody where
  amount_in_minor : ℚ
  currency : String
  reference : String
  userUuid : String
deriving DecidableEq, Repr

/-- The content covered by `signRequest` in `services/truelayer.ts`: upper
cased method, target path, the single-entry header subset holding the
idempotency key, and the serialized body. -/
structure SignedContent where
  method : String
  path : String
  idempotencyHeader : String
  body : PaymentRequestBody
deriving DecidableEq, Repr

/-- `signRequest` modelled by the content it signs (the asymmetric signature
itself is an external primitive; what the code determines is exactly which
method, path, header subset and body bytes are covered). -/
def signRequest (method : String) (path : String) (body : PaymentRequestBody)
    (idempotencyKey : String) : SignedContent :=
  { method := method.toUpper
    path := path
    idempotencyHeader := idempotencyKey
    body := body }

/-- The outbound `POST /v3/payments` call assembled by `createPayment`:
target path, request body, the signed content behind the `Tl-Signature` header, and
the `Idempotency-Key` header value. -/
structure GatewayCreateCall where
  path : String
  body : PaymentRequestBody
  tlSignature : SignedContent
  idempotencyKeyHeader : String
deriving DecidableEq, Repr

/-- The request-assembly half of `createPayment` in `services/truelayer.ts`.
`uuid` is the `crypto.randomUUID()` oracle in draw order: draw 0 is the
end-user id inside the body, draw 1 is the idempotency key.  The key is
drawn once, passed to `signRequest` and sent as the `Idempotency-Key`
header of the same call. -/
def createPaymentCall (uuid : Nat → String)
    (paymentData : CreatePaymentRequest) : GatewayCreateCall :=
  let requestBody : PaymentRequestBody :=
    { amount_in_minor := paymentData.amount * 100
      currency := paymentData.currency.toUpper
      reference := paymentData.reference
      userUuid := uuid 0 }
  let idempotencyKey := uuid 1
  let signature := signRequest "POST" "/v3/payments" requestBody idempotencyKey
  { path := "/v3/payments"
    body := requestBody
    tlSignature := signature
    idempotencyKeyHeader := idempotencyKey }

/-- The URI-encoded return address `http://localhost:5173/dashboard` as produced by `encodeURIComponent`. -/
def returnUri : String := "http%3A%2F%2Flocalhost%3A5173%2Fdashboard"

/-- The hosted-payments-page URL built by `createPayment` from the created
id and resource token of the created payment (hash-fragment format). -/
def buildHostedUrl (id resourceToken : String) : String :=
  "https://payment.truelayer-sandbox.com/payments#payment_id=" ++ id ++
    "&resource_token=" ++ resourceToken ++ "&return_uri=" ++ returnUri

/-- The response-side tail of `createPayment`: when the gateway response
carries a (truthy) `resource_token` and `id`, the hosted payment page URL is
attached; otherwise the response is returned as received. -/
def finalizeCreateResponse (resp : TrueLayerPaymentResponse) : TrueLayerPaymentResponse :=
  match resp.resource_token with
  | some tok =>
      if tok ≠ "" ∧ resp.id ≠ "" then
        { resp with hosted_payments_page_url := some (buildHostedUrl resp.id tok) }
      else resp
  | none => resp

/-- Result of the `POST /api/payments` route: a 400 validation failure or a
201 with the payment that was persisted and echoed back. -/
inductive CreateRouteResult where
  | badRequest (message : String)
  | created (payment : Payment)
deriving DecidableEq, Repr

/-- The `POST /api/payments` route handler on the success path of the
gateway call: validates the body (falsy / non-positive amount, missing
currency or reference), then persists and returns the record built from the
finalized gateway response.  `gatewayResp` is the wire response the gateway
returned; `now` is `new Date().toISOString()` at handling time. -/
def createPaymentRoute (userId : String) (paymentRequest : CreatePaymentRequest)
    (gatewayResp : TrueLayerPaymentResponse) (now : String) : CreateRouteResult :=
  if paymentRequest.amount = 0 ∨ paymentRequest.currency = "" ∨ paymentRequest.reference = "" then
    .badRequest "Missing required fields: amount, currency, reference"
  else if paymentRequest.amount ≤ 0 then
    .badRequest "Amount must be greater than 0"
  else
    let trueLayerPayment := finalizeCreateResponse gatewayResp
    .created
      { userId := userId
        paymentId := trueLayerPayment.id
        amount := paymentRequest.amount
        currency := paymentRequest.currency.toUpper
        status := mapPaymentStatus trueLayerPayment
        reference := paymentRequest.reference
        createdAt := now
        updatedAt := now
        paymentLink := trueLayerPayment.hosted_payments_page_url
        trueLayerData := some trueLayerPayment }

/-! ### Token lease manager -/

/-- The token cache held in the `TrueLayerService` instance fields
`accessToken` and `tokenExpiresAt` (milliseconds since epoch, initially 0). -/
structure TokenState where
  accessToken : Option String := none
  tokenExpiresAt : Int := 0
deriving DecidableEq, Repr

/-- A successful response body from the token endpoint (`expires_in` in
seconds). -/
structure TokenResponse where
  access_token : String
  expires_in : Int
deriving DecidableEq, Repr

/-- An error from the token-exchange call. -/
structure AuthError where
  message : String
deriving DecidableEq, Repr

/-- JavaScript truthiness of the `accessToken` field: non-null and
non-empty. -/
def tokenTruthy (st : TokenState) : Bool :=
  match st.accessToken with
  | some tok => tok ≠ ""
  | none => false

/-- Result of one `getAccessToken` call: the token handed to the caller, the
cache state afterwards, and whether this call performed a token-exchange
request. -/
structure TokenFetch where
  token : String
  state : TokenState
  didExchange : Bool
deriving DecidableEq, Repr

/-- `getAccessToken` from `services/truelayer.ts`: returns the cached token
when one is present and `Date.now()` is before the cached expiry, performing
no exchange; otherwise performs the client-credentials exchange and caches
the result with expiry `now + (expires_in - 60) seconds` (a fixed 60-second
safety margin); an exchange failure is rethrown as an auth error. -/
def getAccessToken (st : TokenState) (now : Int)
    (exchange : Except AuthError TokenResponse) : Except AuthError TokenFetch :=
  if tokenTruthy st ∧ now < st.tokenExpiresAt then
    .ok ⟨st.accessToken.getD "", st, false⟩
  else
    match exchange with
    | .ok r =>
        .ok ⟨r.access_token,
          { accessToken := some r.access_token
            tokenExpiresAt := now + (r.expires_in - 60) * 1000 }, true⟩
    | .error _ => .error ⟨"Failed to authenticate with TrueLayer"⟩

/-! ### Interleaving model of concurrent `getAccessToken` calls

The cached token lives in plain instance fields with no mutex and no
in-flight de-duplication.  A caller of `getAccessToken` runs synchronously up
to the cache-validity check; if the cache is invalid it `await`s its own
exchange request (a suspension point), and only when that response arrives
does it write the cache and return.  We model each caller as a two-phase
task and run an explicit schedule of task steps over the shared cache. -/

/-- Phase of one concurrent `getAccessToken` caller: not yet started, blocked
on its own in-flight exchange, or finished with the token it returned. -/
inductive CallerPhase where
  | start
  | fetching
  | done (token : String)
deriving DecidableEq, Repr

/-- Shared state of the concurrent-callers model: the cache, the phase of
each caller, the number of exchange requests issued so far, the number currently
in flight, and the high-water mark of simultaneous in-flight exchanges. -/
structure ConcurrentState where
  cache : TokenState
  phases : List CallerPhase
  exchanges : Nat := 0
  inFlight : Nat := 0
  maxInFlight : Nat := 0
deriving DecidableEq, Repr

/-- One scheduler step giving control to caller `i`.  From `start`, the
caller runs the cache-validity check: a valid cache answers synchronously
with the cached token, an invalid cache issues an exchange request and
suspends.  From `fetching`, the response of that caller (token `tokenOf i`,
lifetime `expiresIn` seconds) arrives: it writes the cache and finishes. -/
def stepCaller (tokenOf : Nat → String) (expiresIn : Int) (now : Int)
    (s : ConcurrentState) (i : Nat) : ConcurrentState :=
  match s.phases.get? i with
  | some .start =>
      if tokenTruthy s.cache ∧ now < s.cache.tokenExpiresAt then
        { s with phases := s.phases.set i (.done (s.cache.accessToken.getD "")) }
      else
        { s with phases := s.phases.set i .fetching,
                 exchanges := s.exchanges + 1,
                 inFlight := s.inFlight + 1,
                 maxInFlight := max s.maxInFlight (s.inFlight + 1) }
  | some .fetching =>
      { s with
          cache := { accessToken := some (tokenOf i),
                     tokenExpiresAt := now + (expiresIn - 60) * 1000 },
          phases := s.phases.set i (.done (tokenOf i)),
          inFlight := s.inFlight - 1 }
  | _ => s

/-- Run a schedule (a list of caller indices) from a given state. -/
def runSchedule (tokenOf : Nat → String) (expiresIn : Int) (now : Int)
    (sched : List Nat) (s : ConcurrentState) : ConcurrentState :=
  sched.foldl (stepCaller tokenOf expiresIn now) s

/-- Initial state for `n` concurrent callers over an empty cache. -/
def freshCallers (n : Nat) : ConcurrentState :=
  { cache := {}, phases := List.replicate n .start }

/-! ## Claim theorems -/

/-- C1: `mapPaymentStatus` is the identity on the status field of every
gateway payment response — every status value, including `failed` with any
accompanying `failure_reason`, is returned verbatim with no
reinterpretation. -/
theorem mapPaymentStatus_verbatim :
    ∀ (p : TrueLayerPaymentResponse) (fr : Option String),
      mapPaymentStatus p = p.status ∧
      mapPaymentStatus { p with failure_reason := fr } = p.status := by
  intro p fr
  exact ⟨rfl, rfl⟩

/-- C5: every `createPayment` call draws exactly one fresh idempotency key
(the second UUID draw), and that same key is both the value of the
single-entry header subset covered by the request signature and the
`Idempotency-Key` header of the issued `POST /v3/payments` request; the
signed path and body also coincide with those of the issued request. -/
theorem createPayment_one_idempotency_key :
    ∀ (uuid : Nat → String) (paymentData : CreatePaymentRequest),
      (createPaymentCall uuid paymentData).tlSignature.idempotencyHeader =
        (createPaymentCall uuid paymentData).idempotencyKeyHeader ∧
      (createPaymentCall uuid paymentData).idempotencyKeyHeader = uuid 1 ∧
      (createPaymentCall uuid paymentData).tlSignature.path =
        (createPaymentCall uuid paymentData).path ∧
      (createPaymentCall uuid paymentData).tlSignature.body =
        (createPaymentCall uuid paymentData).body := by
  intro uuid paymentData
  exact ⟨rfl, rfl, rfl, rfl⟩

/-- C10: for every creation request passing validation, the amount sent to
the gateway as `amount_in_minor` is exactly `100 ×` the caller-supplied
amount, while the persisted record stores the caller-supplied amount
unchanged, so the two always differ by a factor of exactly 100. -/
theorem amount_minor_units_factor (uuid : Nat → String)
    (paymentRequest : CreatePaymentRequest) (userId now : String)
    (gatewayResp : TrueLayerPaymentResponse)
    (hpos : 0 < paymentRequest.amount)
    (hcur : paymentRequest.currency ≠ "") (href : paymentRequest.reference ≠ "") :
    (createPaymentCall uuid paymentRequest).body.amount_in_minor =
      100 * paymentRequest.amount ∧
    ∃ payment,
      createPaymentRoute userId paymentRequest gatewayResp now = .created payment ∧
      payment.amount = paymentRequest.amount ∧
      (createPaymentCall uuid paymentRequest).body.amount_in_minor =
        100 * payment.amount := by
  have h0 : paymentRequest.amount ≠ 0 := ne_of_gt hpos
  have hnle : ¬paymentRequest.amount ≤ 0 := not_le.mpr hpos
  have hcond : ¬(paymentRequest.amount = 0 ∨ paymentRequest.currency = "" ∨
      paymentRequest.reference = "") := by
    push_neg
    exact ⟨h0, hcur, href⟩
  refine ⟨mul_comm paymentRequest.amount 100, ?_⟩
  unfold createPaymentRoute
  rw [if_neg hcond, if_neg hnle]
  exact ⟨_, rfl, rfl, mul_comm _ _⟩

/-- Witness for C10 at a concrete creation request. -/
theorem amount_minor_units_factor_witness :
    (createPaymentCall (fun i => if i = 0 then "user-uuid" else "idem-key")
        ⟨50, "gbp", "invoice-1"⟩).body.amount_in_minor = 100 * (50 : ℚ) ∧
    ∃ payment,
      createPaymentRoute "auth0|u1" ⟨50, "gbp", "invoice-1"⟩
          { id := "pay-1", amount_in_minor := 5000, currency := "GBP",
            status := .authorization_required } "2026-01-02T03:04:05Z" =
        .created payment ∧
      payment.amount = (50 : ℚ) ∧
      (createPaymentCall (fun i => if i = 0 then "user-uuid" else "idem-key")
          ⟨50, "gbp", "invoice-1"⟩).body.amount_in_minor = 100 * payment.amount :=
  amount_minor_units_factor
    (fun i => if i = 0 then "user-uuid" else "idem-key")
    ⟨50, "gbp", "invoice-1"⟩ "auth0|u1" "2026-01-02T03:04:05Z"
    { id := "pay-1", amount_in_minor := 5000, currency := "GBP",
      status := .authorization_required }
    (by norm_num) (by decide) (by decide)

/-- C6: `getAccessToken` returns the cached token with no exchange while the
cached expiry has not passed; a successful exchange caches the token with
expiry `now + (expires_in − 60)` seconds, which is exactly 60 seconds (a
fixed safety margin) strictly before the gateway-reported expiry
`now + expires_in` seconds; consequently two sequential calls 1 second apart
under a 4-hour-lifetime (14400 s) token perform exactly one exchange. -/
theorem token_lease_caching :
    (∀ (st : TokenState) (now : Int) (ex : Except AuthError TokenResponse) (tok : String),
        st.accessToken = some tok → tok ≠ "" → now < st.tokenExpiresAt →
        getAccessToken st now ex = .ok ⟨tok, st, false⟩) ∧
    (∀ (st : TokenState) (now : Int) (r : TokenResponse),
        ¬(tokenTruthy st = true ∧ now < st.tokenExpiresAt) →
        getAccessToken st now (.ok r) =
          .ok ⟨r.access_token,
            ⟨some r.access_token, now + (r.expires_in - 60) * 1000⟩, true⟩ ∧
        now + (r.expires_in - 60) * 1000 + 60 * 1000 = now + r.expires_in * 1000) ∧
    (∀ ex2 : Except AuthError TokenResponse,
        getAccessToken {} 0 (.ok ⟨"tok-A", 14400⟩) =
          .ok ⟨"tok-A", ⟨some "tok-A", 14340000⟩, true⟩ ∧
        getAccessToken ⟨some "tok-A", 14340000⟩ 1000 ex2 =
          .ok ⟨"tok-A", ⟨some "tok-A", 14340000⟩, false⟩) := by
  refine ⟨?_, ?_, ?_⟩
  · intro st now ex tok hsome hne hlt
    have htruthy : tokenTruthy st = true := by
      simp [tokenTruthy, hsome, hne]
    simp [getAccessToken, htruthy, hlt, hsome]
  · intro st now r hmiss
    refine ⟨?_, by ring⟩
    simp only [getAccessToken, if_neg hmiss]
  · intro ex2
    constructor
    · simp [getAccessToken, tokenTruthy]
    · simp [getAccessToken, tokenTruthy]

/-- Witness for C6 at concrete cache states, instants and responses. -/
theorem token_lease_caching_witness :
    getAccessToken ⟨some "cached-tok", 5000⟩ 3000 (.error ⟨"endpoint down"⟩) =
      .ok ⟨"cached-tok", ⟨some "cached-tok", 5000⟩, false⟩ ∧
    (getAccessToken ⟨none, 0⟩ 7 (.ok ⟨"fresh-tok", 120⟩) =
        .ok ⟨"fresh-tok", ⟨some "fresh-tok", 60007⟩, true⟩ ∧
      (7 : Int) + (120 - 60) * 1000 + 60 * 1000 = 7 + 120 * 1000) ∧
    (getAccessToken {} 0 (.ok ⟨"tok-A", 14400⟩) =
        .ok ⟨"tok-A", ⟨some "tok-A", 14340000⟩, true⟩ ∧
      getAccessToken ⟨some "tok-A", 14340000⟩ 1000 (.error ⟨"unused"⟩) =
        .ok ⟨"tok-A", ⟨some "tok-A", 14340000⟩, false⟩) := by
  refine ⟨token_lease_caching.1 _ _ _ _ rfl (by decide) (by decide), ?_, ?_⟩
  · have h := token_lease_caching.2.1 ⟨none, 0⟩ 7 ⟨"fresh-tok", 120⟩
      (by simp [tokenTruthy])
    have : (7 : Int) + (120 - 60) * 1000 = 60007 := by norm_num
    simpa [this] using h
  · exact token_lease_caching.2.2 (.error ⟨"unused"⟩)

/-- C8: when the gateway creation response carries a non-empty `id` and
`resource_token`, the creation route persists and returns a payment whose
status is exactly the returned gateway status and whose payment link is a
non-empty hosted-authorization URL embedding that id and resource token. -/
theorem create_returns_hosted_link (userId : String)
    (paymentRequest : CreatePaymentRequest) (resp : TrueLayerPaymentResponse)
    (now tok : String)
    (hpos : 0 < paymentRequest.amount)
    (hcur : paymentRequest.currency ≠ "") (href : paymentRequest.reference ≠ "")
    (hid : resp.id ≠ "") (htok : resp.resource_token = some tok) (htok0 : tok ≠ "") :
    ∃ payment,
      createPaymentRoute userId paymentRequest resp now = .created payment ∧
      payment.status = resp.status ∧
      payment.paymentLink = some (buildHostedUrl resp.id tok) ∧
      buildHostedUrl resp.id tok ≠ "" ∧
      (∃ s1 s2 s3, buildHostedUrl resp.id tok = s1 ++ resp.id ++ s2 ++ tok ++ s3) := by
  have h0 : paymentRequest.amount ≠ 0 := ne_of_gt hpos
  have hnle : ¬paymentRequest.amount ≤ 0 := not_le.mpr hpos
  have hcond : ¬(paymentRequest.amount = 0 ∨ paymentRequest.currency = "" ∨
      paymentRequest.reference = "") := by
    push_neg
    exact ⟨h0, hcur, href⟩
  have hfin : finalizeCreateResponse resp =
      { resp with hosted_payments_page_url := some (buildHostedUrl resp.id tok) } := by
    simp [finalizeCreateResponse, htok, htok0, hid]
  have hne : buildHostedUrl resp.id tok ≠ "" := by
    intro hcontra
    have hlen := congrArg String.length hcontra
    rw [buildHostedUrl, String.length_append] at hlen
    have hret : returnUri.length = 41 := by decide
    have hempty : ("" : String).length = 0 := by decide
    omega
  unfold createPaymentRoute
  rw [if_neg hcond, if_neg hnle, hfin]
  refine ⟨_, rfl, rfl, rfl, hne, ?_⟩
  refine ⟨"https://payment.truelayer-sandbox.com/payments#payment_id=",
    "&resource_token=", "&return_uri=" ++ returnUri, ?_⟩
  simp [buildHostedUrl, String.append_assoc]

/-- Witness for C8: the 5000-minor-unit GBP scenario with gateway status
`authorization_required` and resource token `abc`. -/
theorem create_returns_hosted_link_witness :
    ∃ payment,
      createPaymentRoute "auth0|u1" ⟨50, "gbp", "order-7"⟩
          { id := "pay-42", amount_in_minor := 5000, currency := "GBP",
            status := .authorization_required, resource_token := some "abc" }
          "2026-01-01T00:00:00Z" = .created payment ∧
      payment.status = PaymentStatus.authorization_required ∧
      payment.paymentLink = some (buildHostedUrl "pay-42" "abc") ∧
      buildHostedUrl "pay-42" "abc" ≠ "" ∧
      (∃ s1 s2 s3, buildHostedUrl "pay-42" "abc" = s1 ++ "pay-42" ++ s2 ++ "abc" ++ s3) :=
  create_returns_hosted_link "auth0|u1" ⟨50, "gbp", "order-7"⟩
    { id := "pay-42", amount_in_minor := 5000, currency := "GBP",
      status := .authorization_required, resource_token := some "abc" }
    "2026-01-01T00:00:00Z" "abc"
    (by norm_num) (by decide) (by decide) (by decide) rfl (by decide)

/-! ### Reconciliation loop lemmas shared between claims -/

/-- If all four attempts fetch successfully and none of the mapped statuses
differs from the original one, the polling loop exits `unchanged` with the
attempt-4 response after 4 calls and 3 sleeps. -/
lemma refreshPoll_all_unchanged
    (gw : Nat → Except GatewayError TrueLayerPaymentResponse) (orig : PaymentStatus)
    (r1 r2 r3 r4 : TrueLayerPaymentResponse)
    (h1 : gw 1 = .ok r1) (m1 : mapPaymentStatus r1 = orig)
    (h2 : gw 2 = .ok r2) (m2 : mapPaymentStatus r2 = orig)
    (h3 : gw 3 = .ok r3) (m3 : mapPaymentStatus r3 = orig)
    (h4 : gw 4 = .ok r4) (m4 : mapPaymentStatus r4 = orig) :
    refreshPoll gw orig = ⟨.unchanged r4, 4, 3⟩ := by
  simp [refreshPoll, pollLoop, maxAttempts, h1, h2, h3, h4, m1, m2, m3, m4]

/-- If every attempt fetches successfully with an unchanged mapped status,
the refresh handler responds successfully with the stored record untouched
and the returned payment annotated with the advisory fields. -/
lemma refreshStatusHandler_all_unchanged
    (gw : Nat → Except GatewayError TrueLayerPaymentResponse)
    (payment : Payment) (now : String)
    (hall : ∀ i, 1 ≤ i → i ≤ maxAttempts →
        ∃ ri, gw i = .ok ri ∧ mapPaymentStatus ri = payment.status) :
    refreshStatusHandler gw payment now =
      .success
        { payment with statusMessage := some advisoryMessage, canRetry := some true }
        payment := by
  have hmax : maxAttempts = 4 := rfl
  obtain ⟨r1, h1, m1⟩ := hall 1 (by norm_num) (by omega)
  obtain ⟨r2, h2, m2⟩ := hall 2 (by norm_num) (by omega)
  obtain ⟨r3, h3, m3⟩ := hall 3 (by norm_num) (by omega)
  obtain ⟨r4, h4, m4⟩ := hall 4 (by norm_num) (by omega)
  have hpoll := refreshPoll_all_unchanged gw payment.status r1 r2 r3 r4
    h1 m1 h2 m2 h3 m3 h4 m4
  simp [refreshStatusHandler, hpoll, afterPoll, m4]

/-- C2: if the mapped gateway status on attempts `1..k-1` equals the last
known status and on attempt `k ≤ 4` differs from it, the polling loop stops
at attempt `k`: it performs exactly `k` `getPayment` calls, sleeps exactly
`k - 1` inter-attempt delays, and exits with the state fetched on attempt
`k`; the attempt ceiling is 4 and the inter-attempt delay is 800 ms. -/
theorem reconcile_convergence
    (gw : Nat → Except GatewayError TrueLayerPaymentResponse)
    (originalStatus : PaymentStatus) (k : Nat) (r : TrueLayerPaymentResponse)
    (hk1 : 1 ≤ k) (hk4 : k ≤ maxAttempts)
    (hbefore : ∀ i, 1 ≤ i → i < k →
        ∃ ri, gw i = .ok ri ∧ mapPaymentStatus ri = originalStatus)
    (hk_ok : gw k = .ok r) (hk_ne : mapPaymentStatus r ≠ originalStatus) :
    refreshPoll gw originalStatus = ⟨.changed r, k, k - 1⟩ ∧
      maxAttempts = 4 ∧ delayMs = 800 := by
  refine ⟨?_, rfl, rfl⟩
  have hk4' : k ≤ 4 := hk4
  interval_cases k
  · simp [refreshPoll, pollLoop, maxAttempts, hk_ok, hk_ne]
  · obtain ⟨r1, h1, m1⟩ := hbefore 1 (by norm_num) (by norm_num)
    simp [refreshPoll, pollLoop, maxAttempts, h1, m1, hk_ok, hk_ne]
  · obtain ⟨r1, h1, m1⟩ := hbefore 1 (by norm_num) (by norm_num)
    obtain ⟨r2, h2, m2⟩ := hbefore 2 (by norm_num) (by norm_num)
    simp [refreshPoll, pollLoop, maxAttempts, h1, m1, h2, m2, hk_ok, hk_ne]
  · obtain ⟨r1, h1, m1⟩ := hbefore 1 (by norm_num) (by norm_num)
    obtain ⟨r2, h2, m2⟩ := hbefore 2 (by norm_num) (by norm_num)
    obtain ⟨r3, h3, m3⟩ := hbefore 3 (by norm_num) (by norm_num)
    simp [refreshPoll, pollLoop, maxAttempts, h1, m1, h2, m2, h3, m3, hk_ok, hk_ne]

/-- Witness for C2: the status changes on attempt 3 of 4. -/
theorem reconcile_convergence_witness :
    refreshPoll
      (fun i => if i < 3 then .ok (respWith .authorizing) else .ok (respWith .executed))
      .authorizing = ⟨.changed (respWith .executed), 3, 3 - 1⟩ ∧
      maxAttempts = 4 ∧ delayMs = 800 :=
  reconcile_convergence
    (fun i => if i < 3 then .ok (respWith .authorizing) else .ok (respWith .executed))
    .authorizing 3 (respWith .executed) (by norm_num) (by decide)
    (fun i hi1 hi3 => ⟨respWith .authorizing, by
      have hi : i = 1 ∨ i = 2 := by omega
      rcases hi with h | h <;> simp [h], rfl⟩)
    (by norm_num) (by decide)

/-- C3: if all 4 polling attempts return a mapped status equal to the last
known status, the refresh handler terminates without raising an error: it
responds successfully with the unchanged payment annotated with the advisory
`statusMessage` and `canRetry := true`. -/
theorem reconcile_exhaustion
    (gw : Nat → Except GatewayError TrueLayerPaymentResponse)
    (payment : Payment) (now : String)
    (hall : ∀ i, 1 ≤ i → i ≤ maxAttempts →
        ∃ ri, gw i = .ok ri ∧ mapPaymentStatus ri = payment.status) :
    refreshStatusHandler gw payment now =
      .success
        { payment with statusMessage := some advisoryMessage, canRetry := some true }
        payment ∧
      ∀ e, refreshStatusHandler gw payment now ≠ .serverError e := by
  have h := refreshStatusHandler_all_unchanged gw payment now hall
  refine ⟨h, fun e hc => ?_⟩
  rw [h] at hc
  simp at hc

/-- Witness for C3: four unchanged attempts on an `authorization_required`
payment. -/
theorem reconcile_exhaustion_witness :
    refreshStatusHandler (fun _ => .ok (respWith .authorization_required))
      { userId := "auth0|u1", paymentId := "pay-9", amount := 25, currency := "GBP",
        status := .authorization_required, reference := "ref-9",
        createdAt := "2026-01-01T00:00:00Z", updatedAt := "2026-01-01T00:00:00Z" }
      "2026-01-01T00:00:10Z" =
      .success
        { userId := "auth0|u1", paymentId := "pay-9", amount := 25, currency := "GBP",
          status := .authorization_required, reference := "ref-9",
          createdAt := "2026-01-01T00:00:00Z", updatedAt := "2026-01-01T00:00:00Z",
          statusMessage := some advisoryMessage, canRetry := some true }
        { userId := "auth0|u1", paymentId := "pay-9", amount := 25, currency := "GBP",
          status := .authorization_required, reference := "ref-9",
          createdAt := "2026-01-01T00:00:00Z", updatedAt := "2026-01-01T00:00:00Z" } ∧
      ∀ e, refreshStatusHandler (fun _ => .ok (respWith .authorization_required))
        { userId := "auth0|u1", paymentId := "pay-9", amount := 25, currency := "GBP",
          status := .authorization_required, reference := "ref-9",
          createdAt := "2026-01-01T00:00:00Z", updatedAt := "2026-01-01T00:00:00Z" }
        "2026-01-01T00:00:10Z" ≠ .serverError e :=
  reconcile_exhaustion (fun _ => .ok (respWith .authorization_required)) _ _
    (fun _ _ _ => ⟨respWith .authorization_required, rfl, rfl⟩)

/-- Frame property of the post-loop update: a successful refresh response
either left the stored record exactly as it was, or the stored status
changed and `updatedAt` was set to the write time. -/
lemma afterPoll_frame (payment : Payment) (now : String)
    (resp : TrueLayerPaymentResponse) (ret st : Payment)
    (h : afterPoll payment payment.status now resp = .success ret st) :
    st = payment ∨ (st.status ≠ payment.status ∧ st.updatedAt = now) := by
  simp only [afterPoll] at h
  split_ifs at h with hne heq
  · injection h with hret hst
    right
    rw [← hst]
    exact ⟨by simpa [updatePaymentStatus] using hne, by simp [updatePaymentStatus]⟩
  · injection h with hret hst
    exact Or.inl hst.symm
  · injection h with hret hst
    exact Or.inl hst.symm

/-- C9: when the fetched gateway status equals the stored status on every
attempt, the refresh leaves the persisted record completely unchanged (the
advisory annotations appear only on the returned value); and in general a
successful refresh rewrites the stored record only when its status changed,
in which case `updatedAt` is set to the write time. -/
theorem reconcile_no_write_frame :
    (∀ (gw : Nat → Except GatewayError TrueLayerPaymentResponse)
        (payment : Payment) (now : String),
        (∀ i, 1 ≤ i → i ≤ maxAttempts →
            ∃ ri, gw i = .ok ri ∧ mapPaymentStatus ri = payment.status) →
        refreshStatusHandler gw payment now =
          .success
            { payment with statusMessage := some advisoryMessage, canRetry := some true }
            payment) ∧
    (∀ (gw : Nat → Except GatewayError TrueLayerPaymentResponse)
        (payment : Payment) (now : String) (ret st : Payment),
        refreshStatusHandler gw payment now = .success ret st →
        st = payment ∨ (st.status ≠ payment.status ∧ st.updatedAt = now)) := by
  constructor
  · exact refreshStatusHandler_all_unchanged
  · intro gw payment now ret st h
    simp only [refreshStatusHandler] at h
    cases houtcome : (refreshPoll gw payment.status).outcome with
    | errored e =>
        rw [houtcome] at h
        simp at h
    | changed resp =>
        rw [houtcome] at h
        exact afterPoll_frame payment now resp ret st h
    | unchanged resp =>
        rw [houtcome] at h
        exact afterPoll_frame payment now resp ret st h

/-- Witness for C9: an unchanged `authorizing` payment is stored back
byte-for-byte identical, and the frame disjunction holds on that run. -/
theorem reconcile_no_write_frame_witness :
    refreshStatusHandler (fun _ => .ok (respWith .authorizing))
      { userId := "auth0|u2", paymentId := "pay-11", amount := 10, currency := "EUR",
        status := .authorizing, reference := "ref-11",
        createdAt := "2026-02-01T00:00:00Z", updatedAt := "2026-02-01T00:00:00Z" }
      "2026-02-01T00:00:09Z" =
      .success
        { userId := "auth0|u2", paymentId := "pay-11", amount := 10, currency := "EUR",
          status := .authorizing, reference := "ref-11",
          createdAt := "2026-02-01T00:00:00Z", updatedAt := "2026-02-01T00:00:00Z",
          statusMessage := some advisoryMessage, canRetry := some true }
        { userId := "auth0|u2", paymentId := "pay-11", amount := 10, currency := "EUR",
          status := .authorizing, reference := "ref-11",
          createdAt := "2026-02-01T00:00:00Z", updatedAt := "2026-02-01T00:00:00Z" } ∧
    (({ userId := "auth0|u2", paymentId := "pay-11", amount := 10, currency := "EUR",
        status := .authorizing, reference := "ref-11",
        createdAt := "2026-02-01T00:00:00Z",
        updatedAt := "2026-02-01T00:00:00Z" } : Payment) =
      { userId := "auth0|u2", paymentId := "pay-11", amount := 10, currency := "EUR",
        status := .authorizing, reference := "ref-11",
        createdAt := "2026-02-01T00:00:00Z", updatedAt := "2026-02-01T00:00:00Z" } ∨
      (({ userId := "auth0|u2", paymentId := "pay-11", amount := 10, currency := "EUR",
          status := .authorizing, reference := "ref-11",
          createdAt := "2026-02-01T00:00:00Z",
          updatedAt := "2026-02-01T00:00:00Z" } : Payment).status ≠ .authorizing ∧
        "2026-02-01T00:00:00Z" = "2026-02-01T00:00:09Z")) := by
  have h := reconcile_no_write_frame.1 (fun _ => .ok (respWith .authorizing))
    { userId := "auth0|u2", paymentId := "pay-11", amount := 10, currency := "EUR",
      status := .authorizing, reference := "ref-11",
      createdAt := "2026-02-01T00:00:00Z", updatedAt := "2026-02-01T00:00:00Z" }
    "2026-02-01T00:00:09Z" (fun _ _ _ => ⟨respWith .authorizing, rfl, rfl⟩)
  have h2 := reconcile_no_write_frame.2 (fun _ => .ok (respWith .authorizing))
    { userId := "auth0|u2", paymentId := "pay-11", amount := 10, currency := "EUR",
      status := .authorizing, reference := "ref-11",
      createdAt := "2026-02-01T00:00:00Z", updatedAt := "2026-02-01T00:00:00Z" }
    "2026-02-01T00:00:09Z" _ _ h
  exact ⟨h, h2⟩

/-- Counterexample to C4: a hard `getPayment` error on attempt 1 does not
terminate the loop and does not propagate — the loop sleeps, retries, makes
a second `getPayment` call, and returns the attempt-2 state successfully. -/
theorem reconcile_error_swallowed_counterexample :
    refreshPoll
      (fun i => if i = 1 then .error ⟨"ECONNRESET"⟩ else .ok (respWith .executed))
      .authorizing = ⟨.changed (respWith .executed), 2, 1⟩ ∧
    (refreshPoll
        (fun i => if i = 1 then .error ⟨"ECONNRESET"⟩ else .ok (respWith .executed))
        .authorizing).calls ≠ 1 ∧
    (refreshPoll
        (fun i => if i = 1 then .error ⟨"ECONNRESET"⟩ else .ok (respWith .executed))
        .authorizing).outcome ≠ .errored ⟨"ECONNRESET"⟩ := by
  exact ⟨by decide, by decide, by decide⟩

/-- C4 (amended): only a hard error on the final (4th) attempt propagates to
the caller; a hard error on an earlier attempt is swallowed — the loop
sleeps the inter-attempt delay and retries.  In particular, if every attempt
fails hard, the loop performs all 4 `getPayment` calls and 3 sleeps and then
rethrows the final error, which the route surfaces as a server error. -/
theorem reconcile_error_final_attempt_propagates
    (gw : Nat → Except GatewayError TrueLayerPaymentResponse)
    (originalStatus : PaymentStatus) (e : GatewayError)
    (hfirst : ∀ i, 1 ≤ i → i < maxAttempts → ∃ ei, gw i = .error ei)
    (hlast : gw 4 = .error e) :
    refreshPoll gw originalStatus = ⟨.errored e, 4, 3⟩ ∧
      ∀ (payment : Payment) (now : String), payment.status = originalStatus →
        refreshStatusHandler gw payment now = .serverError e := by
  obtain ⟨e1, h1⟩ := hfirst 1 (by norm_num) (by norm_num [maxAttempts])
  obtain ⟨e2, h2⟩ := hfirst 2 (by norm_num) (by norm_num [maxAttempts])
  obtain ⟨e3, h3⟩ := hfirst 3 (by norm_num) (by norm_num [maxAttempts])
  have hpoll : refreshPoll gw originalStatus = ⟨.errored e, 4, 3⟩ := by
    simp [refreshPoll, pollLoop, maxAttempts, h1, h2, h3, hlast]
  refine ⟨hpoll, fun payment now hstatus => ?_⟩
  rw [refreshStatusHandler, hstatus, hpoll]

/-- Witness for the amended C4: every attempt fails hard, the 4th error
becomes the server error. -/
theorem reconcile_error_final_attempt_propagates_witness :
    refreshPoll (fun _ => .error ⟨"gateway down"⟩) .authorizing =
      ⟨.errored ⟨"gateway down"⟩, 4, 3⟩ ∧
    ∀ (payment : Payment) (now : String), payment.status = .authorizing →
      refreshStatusHandler (fun _ => .error ⟨"gateway down"⟩) payment now =
        .serverError ⟨"gateway down"⟩ :=
  reconcile_error_final_attempt_propagates (fun _ => .error ⟨"gateway down"⟩)
    .authorizing ⟨"gateway down"⟩ (fun _ _ _ => ⟨⟨"gateway down"⟩, rfl⟩) rfl

/-- Counterexample to C7: two concurrent `getAccessToken` callers over an
empty cache, interleaved so that both run the cache-validity check before
either exchange completes, perform two token-exchange calls (not one), have
two exchanges in flight simultaneously, and receive different tokens. -/
theorem single_flight_counterexample :
    (runSchedule (fun i => if i = 0 then "tok-alpha" else "tok-beta") 14400 0
        [0, 1, 0, 1] (freshCallers 2)).exchanges = 2 ∧
    (runSchedule (fun i => if i = 0 then "tok-alpha" else "tok-beta") 14400 0
        [0, 1, 0, 1] (freshCallers 2)).exchanges ≠ 1 ∧
    (runSchedule (fun i => if i = 0 then "tok-alpha" else "tok-beta") 14400 0
        [0, 1, 0, 1] (freshCallers 2)).maxInFlight = 2 ∧
    (runSchedule (fun i => if i = 0 then "tok-alpha" else "tok-beta") 14400 0
        [0, 1, 0, 1] (freshCallers 2)).phases =
      [.done "tok-alpha", .done "tok-beta"] := by
  exact ⟨by decide, by decide, by decide, by decide⟩

/-- C7 (amended): the token cache has no single-flight guard, so the number
of exchanges depends on the interleaving — concurrent callers that all pass
the validity check before any exchange completes each trigger their own
exchange and can observe different tokens, while strictly sequential callers
(each starting after the previous finished) trigger exactly one exchange and
all observe the same token. -/
theorem token_acquisition_schedule_dependent :
    ((runSchedule (fun i => if i = 0 then "tok-alpha" else "tok-beta") 14400 0
        [0, 1, 0, 1] (freshCallers 2)).exchanges = 2 ∧
      (runSchedule (fun i => if i = 0 then "tok-alpha" else "tok-beta") 14400 0
        [0, 1, 0, 1] (freshCallers 2)).phases =
        [.done "tok-alpha", .done "tok-beta"]) ∧
    ((runSchedule (fun i => if i = 0 then "tok-alpha" else "tok-beta") 14400 0
        [0, 0, 1, 1] (freshCallers 2)).exchanges = 1 ∧
      (runSchedule (fun i => if i = 0 then "tok-alpha" else "tok-beta") 14400 0
        [0, 0, 1, 1] (freshCallers 2)).phases =
        [.done "tok-alpha", .done "tok-alpha"]) := by
  exact ⟨⟨by decide, by decide⟩, ⟨by decide, by decide⟩⟩

end PaymentDashboard
